import Mathlib

/-! Shallow embedding of the SparseSC fitting driver (src/SparseSC/fit.py): the
orchestrator function fit, its helper for penalty selection (the function
called choose with two leading underscores in the source), and the result
class SparseSCFit with its predict method.

External collaborators that live outside fit.py (w_pen_guestimate,
get_max_v_pen, CV_score, tensor, weights, the sklearn KFold splitter and the
numpy exp and log functions) are modelled as an abstract structure of
functions, Ext.  The embedding of fit records every call to one of these
collaborators in an event trace, so that ordering properties (which external
computation ran, with which arguments, before which error) can be stated and
proved.  Numeric scalars are taken in an arbitrary linear ordered field; the
concrete instantiations below use the rationals, and the statement about the
default penalty grid of exp and log values is made over the reals. -/

namespace SparseSC

set_option linter.unusedVariables false
set_option linter.unusedSectionVars false

/-- A numpy style real matrix, modelled as its list of rows. -/
abbrev Mat (β : Type) : Type := List (List β)

/-- Row selection M[idx, :] for a list of (nonnegative) integer row indices,
as used by fit.py on X, Y and custom_donor_pool after validation has ensured
all indices are in range. -/
def rowSelect {β : Type} (M : Mat β) (idx : List Int) : Mat β :=
  idx.map (fun i => M.getD i.toNat [])

/-- Entry j of the product of a row vector with a matrix. -/
def colDot {β : Type} [Semiring β] (r : List β) (B : Mat β) (j : ℕ) : β :=
  (List.zipWith (fun x row => x * row.getD j 0) r B).sum

/-- Matrix product, as numpy dot on two dimensional arrays. -/
def matMul {β : Type} [Semiring β] (A B : Mat β) : Mat β :=
  A.map (fun r => (List.range (B.headD []).length).map (fun j => colDot r B j))

/-- The treated_units argument of fit: the Python value None, a non iterable
value (for which iter raises TypeError), or a list of integer indices. -/
inductive TreatedArg where
  | noneArg
  | nonIterable
  | units (tu : List Int)
deriving DecidableEq

/-- A float or an array of floats, as accepted for covariate_penalties and as
returned by CV_score. -/
inductive Pens (α : Type) where
  | scalar (v : α)
  | seq (vs : List α)
deriving DecidableEq

/-- An integer fold count or an explicit list of (train, test) index sets, as
accepted for cv_folds and gradient_folds.  Fold contents are modelled at the
level of index sets. -/
inductive FoldsArg where
  | count (k : ℕ)
  | explicit (folds : List (Finset Int × Finset Int))
deriving DecidableEq

/-- The choice argument of fit: the string min, a callable, or any other
(non callable, not min) value. -/
inductive Choice (α : Type) where
  | min
  | callable (f : Pens α → Pens α)
  | other (s : String)

/-- Error conditions raised by fit.py, one constructor per raise or assert
site. -/
inductive FitError where
  /-- assert X.shape[0] == Y.shape[0] (line 168) -/
  | shapeAssert
  /-- ValueError: treated_units must be an iterable (line 180) -/
  | treatedNotIterable
  /-- assert: duplicated values in treated_units are not allowed (line 182) -/
  | duplicateTreated
  /-- assert all(unit < Y.shape[0] for unit in treated_units) (line 187) -/
  | treatedIndexTooLarge
  /-- assert all(unit >= 0 for unit in treated_units) (line 188) -/
  | treatedIndexNegative
  /-- ValueError: unexpected model_type or treated_units = None (line 377) -/
  | badModelTypeWithTreated (m : String)
  /-- ValueError: unexpected model_type or treated_units is not None (line 405) -/
  | badModelTypeNoTreated (m : String)
  /-- ValueError: unexpected value for choice parameter (line 500) -/
  | badChoice (s : String)
  /-- numpy IndexError from covariate_penalties[best_i] -/
  | indexError
deriving DecidableEq

/-- A call made by fit.py to one of its external collaborators, together with
the arguments it received and (for the two penalty estimators) the value it
returned. -/
inductive Event (α : Type) where
  | wPenGuestimate (Xc : Mat α) (ret : α)
  | getMaxVPen (X Y : Mat α) (wPen : Option α) (gradSplits : FoldsArg) (ret : α)
  | kfoldSplit (k : ℕ) (seed : Int) (n : ℕ)
  | cvScore (X Y : Mat α) (Xt Yt : Option (Mat α)) (splits : FoldsArg) (vPen : Pens α)
      (wPen : α) (gradSplits : Option FoldsArg) (randomState : Option Int)
  | tensorCall (X Y : Mat α) (Xt Yt : Option (Mat α)) (vPen : Pens α)
      (gradSplits : Option FoldsArg) (randomState : Option Int)
  | weightsCall (Xtr : Mat α) (Xt : Option (Mat α)) (wPen : α)
deriving DecidableEq

/-- The external collaborators of fit.py, which live in other modules of the
repository (penalty_utils, cross_validation, tensor, weights) or in third
party libraries (sklearn KFold, numpy exp and log).  fit.py only forwards
arguments to them, so they are modelled as abstract functions. -/
structure Ext (α : Type) where
  np_exp : α → α
  np_log : α → α
  w_pen_guestimate : Mat α → α
  get_max_v_pen : Mat α → Mat α → Option α → FoldsArg → α
  cv_score : Mat α → Mat α → Option (Mat α) → Option (Mat α) → FoldsArg → Pens α → α →
      Option FoldsArg → Option Int → Pens α
  tensor : Mat α → Mat α → Option (Mat α) → Option (Mat α) → Pens α →
      Option FoldsArg → Option Int → Mat α
  weights : Mat α → Option (Mat α) → Mat α → α → Option (Mat Bool) → Mat α
  kfold : ℕ → Int → ℕ → List (Finset Int × Finset Int)

/-- The arguments of fit, with the default values of the Python signature. -/
structure FitArgs (α : Type) [LinearOrderedField α] where
  X : Mat α
  Y : Mat α
  treated_units : TreatedArg := .noneArg
  weight_penalty : Option α := none
  covariate_penalties : Option (Pens α) := none
  grid : Option (List α) := none
  min_v_pen : α := 1 / 1000000
  max_v_pen : α := 1
  grid_points : ℕ := 20
  choice : Choice α := .min
  cv_folds : FoldsArg := .count 10
  gradient_folds : FoldsArg := .count 10
  gradient_seed : Int := 10101
  model_type : String := "retrospective"
  custom_donor_pool : Option (Mat Bool) := none

/-- The result class SparseSCFit (fit.py lines 505 to 541). -/
structure SparseSCFit (α : Type) where
  X : Mat α
  Y : Mat α
  control_units : Option (List Int)
  treated_units : Option (List Int)
  model_type : String
  V_penalty : Pens α
  weight_penalty : α
  covariate_penalties : Pens α
  V : Mat α
  sc_weights : Mat α
deriving DecidableEq

/-- The predict method of SparseSCFit (fit.py lines 543 to 551): default the
donor outcome matrix to the control rows of Y (all of Y under the full model
type) and return the product of the fitted weights with it. -/
def SparseSCFit.predict {α : Type} [Semiring α] (f : SparseSCFit α)
    (Ydonor : Option (Mat α)) : Mat α :=
  matMul f.sc_weights
    (match Ydonor with
     | some Yd => Yd
     | none =>
       if f.model_type ≠ "full" then rowSelect f.Y (f.control_units.getD []) else f.Y)

/-- Index of the first minimal element of a list, as numpy argmin on a
nonempty array (numpy raises on an empty array; that case is absorbed by the
out of range branch of the caller). -/
def listArgmin {β : Type} [LinearOrder β] : List β → ℕ
  | [] => 0
  | [_] => 0
  | x :: y :: t =>
    let j := listArgmin (y :: t)
    if (y :: t).getD j y < x then j + 1 else 0

/-- numpy argmin applied to a scalar returns 0; applied to an array it
returns the index of the first minimum. -/
def Pens.argmin {α : Type} [LinearOrder α] : Pens α → ℕ
  | .scalar _ => 0
  | .seq xs => listArgmin xs

/-- Embedding of the private helper choose of fit.py (lines 484 to 502,
spelled with two leading underscores in the source): when
covariate_penalties is not iterable the value of scores is returned as
best_v_pen; otherwise choice min takes covariate_penalties at argmin of
scores, a callable choice is applied to scores, and any other choice raises
ValueError. -/
def chooseVPen {α : Type} [LinearOrder α] (scores : Pens α)
    (covariate_penalties : Pens α) (choice : Choice α) : Except FitError (Pens α) :=
  match covariate_penalties with
  | .scalar _ => .ok scores
  | .seq vs =>
    match choice with
    | .min =>
      match vs.get? scores.argmin with
      | some v => .ok (.scalar v)
      | none => .error .indexError
    | .callable f => .ok (f scores)
    | .other s => .error (.badChoice s)

/-- numpy linspace: n points from a to b inclusive. -/
def linspace {α : Type} [LinearOrderedField α] (a b : α) (n : ℕ) : List α :=
  if n = 0 then []
  else if n = 1 then [a]
  else (List.range n).map (fun i : ℕ => a + (b - a) * (i : α) / ((n : α) - 1))

/-- The default covariate penalty grid of fit.py (lines 205 to 207 and 416
to 418): exp of linspace of log of the bounds, with exp and log the numpy
functions abstracted as arguments. -/
def defaultGrid {α : Type} [LinearOrderedField α] (e l : α → α) (mn mx : α) (n : ℕ) :
    List α :=
  (linspace (l mn) (l mx) n).map e

/-- control_units of fit.py line 190: all row indices of Y not in
treated_units, in increasing order. -/
def controlUnits (n : ℕ) (tu : List Int) : List Int :=
  ((List.range n).map (fun i => (i : Int))).filter (fun u => decide (u ∉ tu))

/-- The three asserts validating an iterable treated_units (fit.py lines 182
to 188), in source order: no duplicates, all indices below the number of rows
of Y, all indices nonnegative. -/
def validateTreated (n : ℕ) (tu : List Int) : Option FitError :=
  if ¬ tu.Nodup then some .duplicateTreated
  else if ¬ ∀ u ∈ tu, u < (n : Int) then some .treatedIndexTooLarge
  else if ¬ ∀ u ∈ tu, 0 ≤ u then some .treatedIndexNegative
  else none

/-- The prospective fold transform of fit.py (lines 265 to 277 and 288 to
300): union the treated units into every train set, remove them from every
test set, drop folds that became empty on either side, and append the fold
(all controls, all treated units).  Fold sides are modelled as index sets
since the source materialises them through Python set operations. -/
def prospectiveFolds (folds : List (Finset Int × Finset Int))
    (treated controls : Finset Int) : List (Finset Int × Finset Int) :=
  ((folds.map (fun p => (p.1 ∪ treated, p.2 \ treated))).filter
      (fun p => decide (p.1 ≠ ∅ ∧ p.2 ≠ ∅)))
    ++ [(controls, treated)]

/-- User supplied gradient folds under model type prospective (fit.py lines
278 to 300): when no supplied fold has the treated units exactly as its test
set, the folds are re-formed with the prospective transform (after a
warning); otherwise they are used as supplied. -/
def prospectiveFoldsUser (folds : List (Finset Int × Finset Int))
    (treated controls : Finset Int) : List (Finset Int × Finset Int) :=
  if ∃ gf ∈ folds, treated = gf.2 then folds
  else prospectiveFolds folds treated controls

/-- Gradient fold resolution under model type prospective (fit.py lines 259
to 300): an integer count is turned into KFold splits of all unit indices
(shuffled with random_state = gradient_seed) and then transformed; a user
supplied list goes through the compatibility check of prospectiveFoldsUser.
The second component is the trace of the KFold call, when one is made. -/
def prospGradFolds {α : Type} [LinearOrderedField α] (ext : Ext α) (a : FitArgs α)
    (tu cu : List Int) : FoldsArg × List (Event α) :=
  match a.gradient_folds with
  | .count k =>
    (.explicit (prospectiveFolds (ext.kfold k a.gradient_seed a.X.length)
        tu.toFinset cu.toFinset),
     [Event.kfoldSplit k a.gradient_seed a.X.length])
  | .explicit fs =>
    (.explicit (prospectiveFoldsUser fs tu.toFinset cu.toFinset), [])

/-- Assembly of the combined weight matrix (fit.py lines 382 to 401): rows of
the treated units come from the first weights call, rows of the control units
from the second. -/
def assembleWeights {α : Type} (n : ℕ) (tu cu : List Int) (Wt Wc : Mat α) : Mat α :=
  (List.range n).map (fun i =>
    match tu.findIdx? (fun u => u == (i : Int)) with
    | some j => Wt.getD j []
    | none => Wc.getD ((cu.findIdx? (fun u => u == (i : Int))).getD 0) [])

/-- The result of a call to fit: the returned SparseSCFit object or the
raised error, together with the trace of external calls made. -/
abbrev FitRes (α : Type) : Type := Except FitError (SparseSCFit α) × List (Event α)

/-- Resolution of the default for weight_penalty (fit.py lines 201 to 202 and
426 to 427): a user supplied value is kept, otherwise w_pen_guestimate runs on
the given control feature matrix. -/
def resolveWPen {α : Type} [LinearOrderedField α] (ext : Ext α) (a : FitArgs α)
    (Xc : Mat α) : α × List (Event α) :=
  match a.weight_penalty with
  | some w => (w, [])
  | none =>
    let w := ext.w_pen_guestimate Xc
    (w, [.wPenGuestimate Xc w])

/-- Resolution of the default for covariate_penalties (fit.py lines 203 to
216 and 414 to 423): a user supplied value is kept; otherwise the grid
(defaulted to the log spaced grid when absent) is scaled elementwise by the
value of get_max_v_pen on the given matrices, weight penalty and gradient
folds. -/
def resolveCPs {α : Type} [LinearOrderedField α] (ext : Ext α) (a : FitArgs α)
    (Xg Yg : Mat α) (wp : Option α) : Pens α × List (Event α) :=
  match a.covariate_penalties with
  | some c => (c, [])
  | none =>
    let gr := match a.grid with
      | some gr => gr
      | none => defaultGrid ext.np_exp ext.np_log a.min_v_pen a.max_v_pen a.grid_points
    let vmax := ext.get_max_v_pen Xg Yg wp a.gradient_folds
    (.seq (gr.map (fun x => x * vmax)), [.getMaxVPen Xg Yg wp a.gradient_folds vmax])

/-- Propagation of the outcome of the choose helper (whose ValueError, when
raised, aborts fit): on success the tensor collaborator runs on the chosen
penalty; on error the error propagates past the trace accumulated so far. -/
def afterChoose {α : Type} (c : Except FitError (Pens α)) (ev : List (Event α))
    (mkV : Pens α → Mat α) (mkEv : Pens α → Event α) :
    Except FitError (Pens α × Mat α) × List (Event α) :=
  match c with
  | .error e => (.error e, ev)
  | .ok best => (.ok (best, mkV best), ev ++ [mkEv best])

/-- The model_type dispatch of the treated branch (fit.py lines 218 to 379),
computing (best_v_pen, best_V) and the trace of phase 1 and 2, or the raised
error. -/
def phase12 {α : Type} [LinearOrderedField α] (ext : Ext α) (a : FitArgs α)
    (tu cu : List Int) (Xtrain Xtest Ytrain Ytest : Mat α) (w : α) (cps : Pens α) :
    Except FitError (Pens α × Mat α) × List (Event α) :=
  if a.model_type = "retrospective" then
    afterChoose
      (chooseVPen (ext.cv_score Xtrain Ytrain none none a.cv_folds cps w
        (some a.gradient_folds) (some a.gradient_seed)) cps a.choice)
      [Event.cvScore Xtrain Ytrain none none a.cv_folds cps w
        (some a.gradient_folds) (some a.gradient_seed)]
      (fun best => ext.tensor Xtrain Ytrain none none best (some a.gradient_folds)
        (some a.gradient_seed))
      (fun best => Event.tensorCall Xtrain Ytrain none none best (some a.gradient_folds)
        (some a.gradient_seed))
  else if a.model_type = "prospective" then
    let gfp := prospGradFolds ext a tu cu
    let gf := gfp.1
    afterChoose
      (chooseVPen (ext.cv_score a.X a.Y none none a.cv_folds cps w (some gf)
        (some a.gradient_seed)) cps a.choice)
      (gfp.2 ++ [Event.cvScore a.X a.Y none none a.cv_folds cps w (some gf)
        (some a.gradient_seed)])
      (fun best => ext.tensor a.X a.Y none none best (some gf) (some a.gradient_seed))
      (fun best => Event.tensorCall a.X a.Y none none best (some gf)
        (some a.gradient_seed))
  else if a.model_type = "prospective-restricted" then
    afterChoose
      (chooseVPen (ext.cv_score Xtrain Ytrain (some Xtest) (some Ytest) a.cv_folds cps w
        none none) cps a.choice)
      [Event.cvScore Xtrain Ytrain (some Xtest) (some Ytest) a.cv_folds cps w none none]
      (fun best => ext.tensor Xtrain Ytrain (some Xtest) (some Ytest) best none none)
      (fun best => Event.tensorCall Xtrain Ytrain (some Xtest) (some Ytest) best none none)
  else (.error (.badModelTypeWithTreated a.model_type), [])

/-- The best-weights assembly shared by the three treated model types
(fit.py lines 381 to 401), run on the outcome of the dispatch. -/
def finishTreated {α : Type} [LinearOrderedField α] (ext : Ext α) (a : FitArgs α)
    (tu cu : List Int) (Xtrain Xtest : Mat α) (w : α) (cps : Pens α)
    (ph : Except FitError (Pens α × Mat α) × List (Event α)) : FitRes α :=
  match ph.1 with
  | .error e => (.error e, ph.2)
  | .ok bv =>
    let dpT := a.custom_donor_pool.map (fun d => rowSelect d tu)
    let dpC := a.custom_donor_pool.map (fun d => rowSelect d cu)
    let Wt := ext.weights Xtrain (some Xtest) bv.2 w dpT
    let Wc := ext.weights Xtrain none bv.2 w dpC
    (.ok { X := a.X, Y := a.Y, control_units := some cu, treated_units := some tu,
           model_type := a.model_type, V_penalty := bv.1, weight_penalty := w,
           covariate_penalties := cps, V := bv.2,
           sc_weights := assembleWeights a.X.length tu cu Wt Wc },
     ph.2 ++ [Event.weightsCall Xtrain (some Xtest) w, Event.weightsCall Xtrain none w])

/-- Xtrain of the treated branch: the control rows of X (fit.py line 192). -/
def tbXtrain {α : Type} [LinearOrderedField α] (a : FitArgs α) (tu : List Int) : Mat α :=
  rowSelect a.X (controlUnits a.Y.length tu)

/-- Ytrain of the treated branch: the control rows of Y (fit.py line 194). -/
def tbYtrain {α : Type} [LinearOrderedField α] (a : FitArgs α) (tu : List Int) : Mat α :=
  rowSelect a.Y (controlUnits a.Y.length tu)

/-- Weight penalty resolution of the treated branch (fit.py lines 201 to
202): the guestimate runs on Xtrain. -/
def tbW {α : Type} [LinearOrderedField α] (ext : Ext α) (a : FitArgs α)
    (tu : List Int) : α × List (Event α) :=
  resolveWPen ext a (tbXtrain a tu)

/-- Covariate penalty resolution of the treated branch (fit.py lines 203 to
216): get_max_v_pen runs on Xtrain and Ytrain with the already resolved
weight penalty. -/
def tbC {α : Type} [LinearOrderedField α] (ext : Ext α) (a : FitArgs α)
    (tu : List Int) : Pens α × List (Event α) :=
  resolveCPs ext a (tbXtrain a tu) (tbYtrain a tu) (some (tbW ext a tu).1)

/-- The model_type dispatch of the treated branch, on the resolved
penalties. -/
def tbPh {α : Type} [LinearOrderedField α] (ext : Ext α) (a : FitArgs α)
    (tu : List Int) : Except FitError (Pens α × Mat α) × List (Event α) :=
  phase12 ext a tu (controlUnits a.Y.length tu) (tbXtrain a tu) (rowSelect a.X tu)
    (tbYtrain a tu) (rowSelect a.Y tu) (tbW ext a tu).1 (tbC ext a tu).1

/-- The weights assembly of the treated branch, on the dispatch outcome. -/
def tbFin {α : Type} [LinearOrderedField α] (ext : Ext α) (a : FitArgs α)
    (tu : List Int) : FitRes α :=
  finishTreated ext a tu (controlUnits a.Y.length tu) (tbXtrain a tu) (rowSelect a.X tu)
    (tbW ext a tu).1 (tbC ext a tu).1 (tbPh ext a tu)

/-- The branch of fit for treated_units not None (fit.py lines 171 to 401),
entered after the validation asserts have passed: data wrangling, defaults,
the model_type dispatch, and the final weights assembly, with the trace of
external calls in source order. -/
def treatedBranch {α : Type} [LinearOrderedField α] (ext : Ext α) (a : FitArgs α)
    (tu : List Int) : FitRes α :=
  ((tbFin ext a tu).1, (tbW ext a tu).2 ++ ((tbC ext a tu).2 ++ (tbFin ext a tu).2))

/-- Covariate penalty resolution of the full branch (fit.py lines 414 to
423): get_max_v_pen runs on all of X and Y with the still unresolved raw
weight_penalty argument. -/
def fbC {α : Type} [LinearOrderedField α] (ext : Ext α) (a : FitArgs α) :
    Pens α × List (Event α) :=
  resolveCPs ext a a.X a.Y a.weight_penalty

/-- Weight penalty resolution of the full branch (fit.py lines 425 to 427),
run after the covariate penalty default. -/
def fbW {α : Type} [LinearOrderedField α] (ext : Ext α) (a : FitArgs α) :
    α × List (Event α) :=
  resolveWPen ext a a.X

/-- Phases 1 and 2 and the final weights of the full branch (fit.py lines
429 to 466). -/
def fbFin {α : Type} [LinearOrderedField α] (ext : Ext α) (a : FitArgs α) : FitRes α :=
  match chooseVPen (ext.cv_score a.X a.Y none none a.cv_folds (fbC ext a).1 (fbW ext a).1
      (some a.gradient_folds) (some a.gradient_seed)) (fbC ext a).1 a.choice with
  | .error e =>
    (.error e, [Event.cvScore a.X a.Y none none a.cv_folds (fbC ext a).1 (fbW ext a).1
      (some a.gradient_folds) (some a.gradient_seed)])
  | .ok best =>
    let V := ext.tensor a.X a.Y none none best (some a.gradient_folds)
      (some a.gradient_seed)
    (.ok { X := a.X, Y := a.Y, control_units := none, treated_units := none,
           model_type := a.model_type, V_penalty := best, weight_penalty := (fbW ext a).1,
           covariate_penalties := (fbC ext a).1, V := V,
           sc_weights := ext.weights a.X none V (fbW ext a).1 a.custom_donor_pool },
     [Event.cvScore a.X a.Y none none a.cv_folds (fbC ext a).1 (fbW ext a).1
        (some a.gradient_folds) (some a.gradient_seed),
      Event.tensorCall a.X a.Y none none best (some a.gradient_folds)
        (some a.gradient_seed),
      Event.weightsCall a.X none (fbW ext a).1])

/-- The branch of fit for treated_units None (fit.py lines 402 to 466): only
model_type full is accepted. -/
def fullBranch {α : Type} [LinearOrderedField α] (ext : Ext α) (a : FitArgs α) :
    FitRes α :=
  if a.model_type ≠ "full" then (.error (.badModelTypeNoTreated a.model_type), [])
  else ((fbFin ext a).1, (fbC ext a).2 ++ ((fbW ext a).2 ++ (fbFin ext a).2))

/-- Embedding of fit (fit.py lines 20 to 481): the shape assert, the
treated_units dispatch with its validation, and the two branches. -/
def fit {α : Type} [LinearOrderedField α] (ext : Ext α) (a : FitArgs α) : FitRes α :=
  if a.X.length ≠ a.Y.length then (.error .shapeAssert, [])
  else
    match a.treated_units with
    | .nonIterable => (.error .treatedNotIterable, [])
    | .units tu =>
      match validateTreated a.Y.length tu with
      | some e => (.error e, [])
      | none => treatedBranch ext a tu
    | .noneArg => fullBranch ext a

/-- True on the events recording a call to CV_score. -/
def isCvScore {α : Type} : Event α → Bool
  | .cvScore _ _ _ _ _ _ _ _ _ => true
  | _ => false

/-- Whether the expensive CV_score grid evaluation ran in a trace. -/
def cvRan {α : Type} (tr : List (Event α)) : Bool :=
  tr.any isCvScore

/-- The covariate penalties handed to the first CV_score call of a trace. -/
def usedVPen {α : Type} : List (Event α) → Option (Pens α)
  | [] => none
  | .cvScore _ _ _ _ _ vp _ _ _ :: _ => some vp
  | _ :: t => usedVPen t

/-- The gradient folds handed to the first CV_score call of a trace. -/
def usedGradSplits {α : Type} : List (Event α) → Option (Option FoldsArg)
  | [] => none
  | .cvScore _ _ _ _ _ _ _ gs _ :: _ => some gs
  | _ :: t => usedGradSplits t

/-- The V_penalty field of a successful fit result. -/
def resultVPen {α : Type} (r : FitRes α) : Option (Pens α) :=
  match r.1 with
  | .ok f => some f.V_penalty
  | .error _ => none

/-- The external collaborators together with read access to the ambient
process global random state, modelled as an extra integer argument in first
position.  fit.py itself never touches the global state: it reaches the
collaborators only through explicit arguments, passing gradient_seed where a
random_state is expected. -/
structure ExtG (α : Type) where
  np_exp : Int → α → α
  np_log : Int → α → α
  w_pen_guestimate : Int → Mat α → α
  get_max_v_pen : Int → Mat α → Mat α → Option α → FoldsArg → α
  cv_score : Int → Mat α → Mat α → Option (Mat α) → Option (Mat α) → FoldsArg → Pens α →
      α → Option FoldsArg → Option Int → Pens α
  tensor : Int → Mat α → Mat α → Option (Mat α) → Option (Mat α) → Pens α →
      Option FoldsArg → Option Int → Mat α
  weights : Int → Mat α → Option (Mat α) → Mat α → α → Option (Mat Bool) → Mat α
  kfold : Int → ℕ → Int → ℕ → List (Finset Int × Finset Int)

/-- The collaborators as seen in one particular global random state g. -/
def ExtG.fixRng {α : Type} (e : ExtG α) (g : Int) : Ext α :=
  { np_exp := e.np_exp g
    np_log := e.np_log g
    w_pen_guestimate := e.w_pen_guestimate g
    get_max_v_pen := e.get_max_v_pen g
    cv_score := e.cv_score g
    tensor := e.tensor g
    weights := e.weights g
    kfold := e.kfold g }

/-- A run of fit in global random state g: the state can reach the
computation only through the collaborators, faithfully to fit.py, which
contains no direct use of process global randomness. -/
def fitG {α : Type} [LinearOrderedField α] (g : Int) (e : ExtG α) (a : FitArgs α) :
    FitRes α :=
  fit (e.fixRng g) a

/-- A concrete instantiation of the external collaborators over the
rationals, used for concrete evaluations.  Its CV_score returns a scalar
score for a scalar penalty argument and a vector of scores for a vector of
penalties, as the real CV_score does. -/
def extQ : Ext ℚ :=
  { np_exp := fun x => x + 1
    np_log := fun x => x - 1
    w_pen_guestimate := fun _ => 2
    get_max_v_pen := fun _ _ _ _ => 3
    cv_score := fun _ _ _ _ _ vp _ _ _ =>
      match vp with
      | .scalar _ => .scalar 7
      | .seq vs => .seq vs.reverse
    tensor := fun _ _ _ _ _ _ _ => [[1]]
    weights := fun _ _ _ _ _ => [[1], [1], [1], [1]]
    kfold := fun _ _ _ => [({0, 1}, {2, 3})]
  }

/-- The rational collaborators, ignoring the global random state. -/
def extQG : ExtG ℚ :=
  { np_exp := fun _ => extQ.np_exp
    np_log := fun _ => extQ.np_log
    w_pen_guestimate := fun _ => extQ.w_pen_guestimate
    get_max_v_pen := fun _ => extQ.get_max_v_pen
    cv_score := fun _ => extQ.cv_score
    tensor := fun _ => extQ.tensor
    weights := fun _ => extQ.weights
    kfold := fun _ => extQ.kfold
  }

/-- Concrete fit arguments over the rationals: four units, the last one
treated, explicit weight and covariate penalties. -/
def argsQ : FitArgs ℚ :=
  { X := [[1], [2], [3], [4]]
    Y := [[1, 2], [2, 3], [3, 4], [4, 5]]
    treated_units := .units [3]
    weight_penalty := some 1
    covariate_penalties := some (.seq [1, 2])
    choice := .min }

section TraceLemmas

variable {α : Type} [LinearOrderedField α] {ext : Ext α} {a : FitArgs α}

theorem cvRan_append (l r : List (Event α)) :
    cvRan (l ++ r) = (cvRan l || cvRan r) := by
  simp [cvRan]

theorem usedVPen_cons_not {e : Event α} (h : isCvScore e = false)
    (t : List (Event α)) : usedVPen (e :: t) = usedVPen t := by
  cases e
  case cvScore => simp [isCvScore] at h
  all_goals rfl

theorem usedGradSplits_cons_not {e : Event α} (h : isCvScore e = false)
    (t : List (Event α)) : usedGradSplits (e :: t) = usedGradSplits t := by
  cases e
  case cvScore => simp [isCvScore] at h
  all_goals rfl

theorem usedVPen_append {l : List (Event α)} (h : cvRan l = false)
    (r : List (Event α)) : usedVPen (l ++ r) = usedVPen r := by
  induction l with
  | nil => rfl
  | cons e t ih =>
    have hh : isCvScore e = false ∧ cvRan t = false := by
      simpa [cvRan, Bool.or_eq_false_iff] using h
    rw [List.cons_append, usedVPen_cons_not hh.1, ih hh.2]

theorem usedGradSplits_append {l : List (Event α)} (h : cvRan l = false)
    (r : List (Event α)) : usedGradSplits (l ++ r) = usedGradSplits r := by
  induction l with
  | nil => rfl
  | cons e t ih =>
    have hh : isCvScore e = false ∧ cvRan t = false := by
      simpa [cvRan, Bool.or_eq_false_iff] using h
    rw [List.cons_append, usedGradSplits_cons_not hh.1, ih hh.2]

theorem resolveWPen_some {w : α} (Xc : Mat α) (h : a.weight_penalty = some w) :
    resolveWPen ext a Xc = (w, []) := by
  simp [resolveWPen, h]

theorem resolveWPen_none (Xc : Mat α) (h : a.weight_penalty = none) :
    resolveWPen ext a Xc =
      (ext.w_pen_guestimate Xc, [Event.wPenGuestimate Xc (ext.w_pen_guestimate Xc)]) := by
  simp [resolveWPen, h]

theorem resolveWPen_noCv (Xc : Mat α) : cvRan (resolveWPen ext a Xc).2 = false := by
  cases h : a.weight_penalty <;> simp [resolveWPen, h, cvRan, isCvScore]

theorem resolveCPs_some {c : Pens α} (Xg Yg : Mat α) (wp : Option α)
    (h : a.covariate_penalties = some c) : resolveCPs ext a Xg Yg wp = (c, []) := by
  simp [resolveCPs, h]

theorem resolveCPs_none_nogrid (Xg Yg : Mat α) (wp : Option α)
    (hc : a.covariate_penalties = none) (hg : a.grid = none) :
    resolveCPs ext a Xg Yg wp =
      (.seq ((defaultGrid ext.np_exp ext.np_log a.min_v_pen a.max_v_pen
          a.grid_points).map (fun x => x * ext.get_max_v_pen Xg Yg wp a.gradient_folds)),
       [Event.getMaxVPen Xg Yg wp a.gradient_folds
          (ext.get_max_v_pen Xg Yg wp a.gradient_folds)]) := by
  simp [resolveCPs, hc, hg]

theorem resolveCPs_trace_none (Xg Yg : Mat α) (wp : Option α)
    (hc : a.covariate_penalties = none) :
    (resolveCPs ext a Xg Yg wp).2 =
      [Event.getMaxVPen Xg Yg wp a.gradient_folds
        (ext.get_max_v_pen Xg Yg wp a.gradient_folds)] := by
  simp [resolveCPs, hc]

theorem resolveCPs_noCv (Xg Yg : Mat α) (wp : Option α) :
    cvRan (resolveCPs ext a Xg Yg wp).2 = false := by
  cases h : a.covariate_penalties <;> simp [resolveCPs, h, cvRan, isCvScore]

theorem prospGradFolds_noCv (tu cu : List Int) :
    cvRan (prospGradFolds ext a tu cu).2 = false := by
  cases h : a.gradient_folds <;> simp [prospGradFolds, h, cvRan, isCvScore]

theorem prospGradFolds_count {k : ℕ} (tu cu : List Int) (h : a.gradient_folds = .count k) :
    prospGradFolds ext a tu cu =
      (.explicit (prospectiveFolds (ext.kfold k a.gradient_seed a.X.length)
          tu.toFinset cu.toFinset),
       [Event.kfoldSplit k a.gradient_seed a.X.length]) := by
  simp [prospGradFolds, h]

theorem prospGradFolds_explicit {fs : List (Finset Int × Finset Int)} (tu cu : List Int)
    (h : a.gradient_folds = .explicit fs) :
    prospGradFolds ext a tu cu =
      (.explicit (prospectiveFoldsUser fs tu.toFinset cu.toFinset), []) := by
  simp [prospGradFolds, h]

theorem afterChoose_snd {c : Except FitError (Pens α)} {ev : List (Event α)}
    {mkV : Pens α → Mat α} {mkEv : Pens α → Event α} :
    ∃ rest, (afterChoose c ev mkV mkEv).2 = ev ++ rest := by
  cases c with
  | error e => exact ⟨[], by simp [afterChoose]⟩
  | ok best => exact ⟨[mkEv best], rfl⟩

theorem afterChoose_error {c : Except FitError (Pens α)} {ev : List (Event α)}
    {mkV : Pens α → Mat α} {mkEv : Pens α → Event α} {e : FitError}
    (h : c = .error e) : afterChoose c ev mkV mkEv = (.error e, ev) := by
  subst h; rfl

theorem finishTreated_snd {tu cu : List Int} {Xtr Xte : Mat α} {w : α} {cps : Pens α}
    {ph : Except FitError (Pens α × Mat α) × List (Event α)} :
    ∃ rest, (finishTreated ext a tu cu Xtr Xte w cps ph).2 = ph.2 ++ rest := by
  rcases ph with ⟨res, tr⟩
  cases res with
  | error e => exact ⟨[], by simp [finishTreated]⟩
  | ok bv => exact ⟨_, rfl⟩

theorem finishTreated_error {tu cu : List Int} {Xtr Xte : Mat α} {w : α} {cps : Pens α}
    {ph : Except FitError (Pens α × Mat α) × List (Event α)} {e : FitError}
    (h : ph.1 = .error e) :
    finishTreated ext a tu cu Xtr Xte w cps ph = (.error e, ph.2) := by
  simp [finishTreated, h]

end TraceLemmas

section DispatchLemmas

variable {α : Type} [LinearOrderedField α] {ext : Ext α} {a : FitArgs α}

theorem fit_shape_mismatch (h : a.X.length ≠ a.Y.length) :
    fit ext a = (.error .shapeAssert, []) := by
  simp [fit, h]

theorem fit_nonIterable (hXY : a.X.length = a.Y.length)
    (ht : a.treated_units = .nonIterable) :
    fit ext a = (.error .treatedNotIterable, []) := by
  simp [fit, hXY, ht]

theorem fit_invalidTreated {tu : List Int} {e : FitError}
    (hXY : a.X.length = a.Y.length) (ht : a.treated_units = .units tu)
    (hv : validateTreated a.Y.length tu = some e) :
    fit ext a = (.error e, []) := by
  simp [fit, hXY, ht, hv]

theorem fit_treated {tu : List Int} (hXY : a.X.length = a.Y.length)
    (ht : a.treated_units = .units tu) (hv : validateTreated a.Y.length tu = none) :
    fit ext a = treatedBranch ext a tu := by
  simp [fit, hXY, ht, hv]

theorem fit_full (hXY : a.X.length = a.Y.length) (ht : a.treated_units = .noneArg) :
    fit ext a = fullBranch ext a := by
  simp [fit, hXY, ht]

theorem validateTreated_dup {n : ℕ} {tu : List Int} (h : ¬ tu.Nodup) :
    validateTreated n tu = some .duplicateTreated := by
  unfold validateTreated
  rw [if_pos h]

theorem validateTreated_big {n : ℕ} {tu : List Int} (hnd : tu.Nodup)
    (h : ¬ ∀ u ∈ tu, u < (n : Int)) :
    validateTreated n tu = some .treatedIndexTooLarge := by
  unfold validateTreated
  rw [if_neg (not_not_intro hnd), if_pos h]

theorem validateTreated_neg {n : ℕ} {tu : List Int} (hnd : tu.Nodup)
    (hlt : ∀ u ∈ tu, u < (n : Int)) (h : ¬ ∀ u ∈ tu, 0 ≤ u) :
    validateTreated n tu = some .treatedIndexNegative := by
  unfold validateTreated
  rw [if_neg (not_not_intro hnd), if_neg (not_not_intro hlt), if_pos h]

end DispatchLemmas

section BranchLemmas

variable {α : Type} [LinearOrderedField α] {ext : Ext α} {a : FitArgs α}

theorem chooseVPen_scalar {β : Type} [LinearOrder β] (scores : Pens β) (v : β)
    (choice : Choice β) : chooseVPen scores (.scalar v) choice = .ok scores := rfl

theorem chooseVPen_seq_other {β : Type} [LinearOrder β] (scores : Pens β)
    (vs : List β) (s : String) :
    chooseVPen scores (.seq vs) (.other s) = .error (.badChoice s) := rfl

theorem treatedBranch_trace (ext : Ext α) (a : FitArgs α) (tu : List Int) :
    ∃ rest, (treatedBranch ext a tu).2 =
      (tbW ext a tu).2 ++ ((tbC ext a tu).2 ++ rest) :=
  ⟨(tbFin ext a tu).2, rfl⟩

theorem treatedBranch_of_phError {tu : List Int} {e : FitError}
    (h : (tbPh ext a tu).1 = .error e) :
    treatedBranch ext a tu =
      (.error e, (tbW ext a tu).2 ++ ((tbC ext a tu).2 ++ (tbPh ext a tu).2)) := by
  have hf : tbFin ext a tu = (.error e, (tbPh ext a tu).2) := by
    unfold tbFin
    exact finishTreated_error h
  unfold treatedBranch
  rw [hf]

theorem phase12_retro {tu cu : List Int} {Xtr Xte Ytr Yte : Mat α} {w : α} {cps : Pens α}
    (hm : a.model_type = "retrospective") :
    phase12 ext a tu cu Xtr Xte Ytr Yte w cps =
      afterChoose
        (chooseVPen (ext.cv_score Xtr Ytr none none a.cv_folds cps w
          (some a.gradient_folds) (some a.gradient_seed)) cps a.choice)
        [Event.cvScore Xtr Ytr none none a.cv_folds cps w
          (some a.gradient_folds) (some a.gradient_seed)]
        (fun best => ext.tensor Xtr Ytr none none best (some a.gradient_folds)
          (some a.gradient_seed))
        (fun best => Event.tensorCall Xtr Ytr none none best (some a.gradient_folds)
          (some a.gradient_seed)) := by
  unfold phase12
  rw [if_pos hm]

theorem phase12_prosp {tu cu : List Int} {Xtr Xte Ytr Yte : Mat α} {w : α} {cps : Pens α}
    (hm : a.model_type = "prospective") :
    phase12 ext a tu cu Xtr Xte Ytr Yte w cps =
      afterChoose
        (chooseVPen (ext.cv_score a.X a.Y none none a.cv_folds cps w
          (some (prospGradFolds ext a tu cu).1) (some a.gradient_seed)) cps a.choice)
        ((prospGradFolds ext a tu cu).2 ++
          [Event.cvScore a.X a.Y none none a.cv_folds cps w
            (some (prospGradFolds ext a tu cu).1) (some a.gradient_seed)])
        (fun best => ext.tensor a.X a.Y none none best
          (some (prospGradFolds ext a tu cu).1) (some a.gradient_seed))
        (fun best => Event.tensorCall a.X a.Y none none best
          (some (prospGradFolds ext a tu cu).1) (some a.gradient_seed)) := by
  unfold phase12
  rw [if_neg (by rw [hm]; decide), if_pos hm]

theorem phase12_restr {tu cu : List Int} {Xtr Xte Ytr Yte : Mat α} {w : α} {cps : Pens α}
    (hm : a.model_type = "prospective-restricted") :
    phase12 ext a tu cu Xtr Xte Ytr Yte w cps =
      afterChoose
        (chooseVPen (ext.cv_score Xtr Ytr (some Xte) (some Yte) a.cv_folds cps w
          none none) cps a.choice)
        [Event.cvScore Xtr Ytr (some Xte) (some Yte) a.cv_folds cps w none none]
        (fun best => ext.tensor Xtr Ytr (some Xte) (some Yte) best none none)
        (fun best => Event.tensorCall Xtr Ytr (some Xte) (some Yte) best none none) := by
  unfold phase12
  rw [if_neg (by rw [hm]; decide), if_neg (by rw [hm]; decide), if_pos hm]

theorem phase12_bad {tu cu : List Int} {Xtr Xte Ytr Yte : Mat α} {w : α} {cps : Pens α}
    (h1 : a.model_type ≠ "retrospective") (h2 : a.model_type ≠ "prospective")
    (h3 : a.model_type ≠ "prospective-restricted") :
    phase12 ext a tu cu Xtr Xte Ytr Yte w cps =
      (.error (.badModelTypeWithTreated a.model_type), []) := by
  unfold phase12
  rw [if_neg h1, if_neg h2, if_neg h3]

theorem fullBranch_bad (h : a.model_type ≠ "full") :
    fullBranch ext a = (.error (.badModelTypeNoTreated a.model_type), []) := by
  unfold fullBranch
  rw [if_pos h]

theorem fullBranch_ok (h : a.model_type = "full") :
    fullBranch ext a =
      ((fbFin ext a).1, (fbC ext a).2 ++ ((fbW ext a).2 ++ (fbFin ext a).2)) := by
  unfold fullBranch
  rw [if_neg (not_not_intro h)]

theorem fbFin_error {e : FitError}
    (h : chooseVPen (ext.cv_score a.X a.Y none none a.cv_folds (fbC ext a).1
        (fbW ext a).1 (some a.gradient_folds) (some a.gradient_seed))
      (fbC ext a).1 a.choice = .error e) :
    fbFin ext a =
      (.error e,
       [Event.cvScore a.X a.Y none none a.cv_folds (fbC ext a).1 (fbW ext a).1
          (some a.gradient_folds) (some a.gradient_seed)]) := by
  unfold fbFin
  rw [h]

theorem fbFin_snd (ext : Ext α) (a : FitArgs α) :
    ∃ rest, (fbFin ext a).2 =
      Event.cvScore a.X a.Y none none a.cv_folds (fbC ext a).1 (fbW ext a).1
        (some a.gradient_folds) (some a.gradient_seed) :: rest := by
  unfold fbFin
  cases hch : chooseVPen (ext.cv_score a.X a.Y none none a.cv_folds (fbC ext a).1
      (fbW ext a).1 (some a.gradient_folds) (some a.gradient_seed))
    (fbC ext a).1 a.choice with
  | error e => exact ⟨[], rfl⟩
  | ok best => exact ⟨_, rfl⟩

end BranchLemmas

section NoCvLemmas

variable {α : Type} [LinearOrderedField α] {ext : Ext α} {a : FitArgs α}

theorem tbW_noCv (tu : List Int) : cvRan (tbW ext a tu).2 = false := by
  unfold tbW
  exact resolveWPen_noCv _

theorem tbC_noCv (tu : List Int) : cvRan (tbC ext a tu).2 = false := by
  unfold tbC
  exact resolveCPs_noCv _ _ _

theorem fbC_noCv : cvRan (fbC ext a).2 = false := by
  unfold fbC
  exact resolveCPs_noCv _ _ _

theorem fbW_noCv : cvRan (fbW ext a).2 = false := by
  unfold fbW
  exact resolveWPen_noCv _

end NoCvLemmas

/-- C9: fit requires as a precondition that X and Y have the same number of
rows: whenever the row counts differ, fit fails immediately with the shape
assertion, before any partitioning, penalty estimation or fitting: the
result is the shape error, the trace of external calls is empty, and this
holds for every collaborator instantiation. -/
theorem claim9_shape_precondition {α : Type} [LinearOrderedField α] (ext : Ext α)
    (a : FitArgs α) (h : a.X.length ≠ a.Y.length) :
    fit ext a = (.error .shapeAssert, []) :=
  fit_shape_mismatch h

/-- Witness for C9 at a concrete input with 4 rows of X and 1 row of Y. -/
theorem claim9_witness :
    fit extQ { argsQ with Y := [[1]] } = (.error .shapeAssert, []) :=
  claim9_shape_precondition extQ { argsQ with Y := [[1]] } (by decide)

/-- C2: when treated_units is provided but is non iterable, contains
duplicates, or contains an index out of range of the rows of Y, fit fails
fast with the corresponding invalid argument error: the result is the error,
the trace of external calls is empty (so no penalty estimation, cross
validation scoring or weight fitting ran), for every collaborator
instantiation.  The four cases follow the source order of the checks. -/
theorem claim2_treated_validation {α : Type} [LinearOrderedField α] (ext : Ext α)
    (a : FitArgs α) (hXY : a.X.length = a.Y.length) :
    (a.treated_units = .nonIterable → fit ext a = (.error .treatedNotIterable, []))
    ∧ (∀ tu, a.treated_units = .units tu → ¬ tu.Nodup →
        fit ext a = (.error .duplicateTreated, []))
    ∧ (∀ tu, a.treated_units = .units tu → tu.Nodup →
        ¬ (∀ u ∈ tu, u < (a.Y.length : Int)) →
        fit ext a = (.error .treatedIndexTooLarge, []))
    ∧ (∀ tu, a.treated_units = .units tu → tu.Nodup →
        (∀ u ∈ tu, u < (a.Y.length : Int)) → ¬ (∀ u ∈ tu, 0 ≤ u) →
        fit ext a = (.error .treatedIndexNegative, [])) :=
  ⟨fun ht => fit_nonIterable hXY ht,
   fun tu ht hnd => fit_invalidTreated hXY ht (validateTreated_dup hnd),
   fun tu ht hnd hbig => fit_invalidTreated hXY ht (validateTreated_big hnd hbig),
   fun tu ht hnd hlt hneg => fit_invalidTreated hXY ht (validateTreated_neg hnd hlt hneg)⟩

/-- Witness for C2 at a concrete input with a duplicated treated unit. -/
theorem claim2_witness :
    fit extQ { argsQ with treated_units := .units [3, 3] } =
      (.error .duplicateTreated, []) :=
  (claim2_treated_validation extQ { argsQ with treated_units := .units [3, 3] }
    rfl).2.1 [3, 3] rfl (by decide)

/-- C3: model type gating.  With a valid treated_units list and
model_type full, fit fails with the configuration error of line 377 (no
fitting output is produced); with treated_units None and any model_type
other than full, fit fails with the configuration error of line 405, with
an empty trace. -/
theorem claim3_model_gating {α : Type} [LinearOrderedField α] (ext : Ext α)
    (a : FitArgs α) (hXY : a.X.length = a.Y.length) :
    (∀ tu, a.treated_units = .units tu → validateTreated a.Y.length tu = none →
      a.model_type = "full" →
      (fit ext a).1 = .error (.badModelTypeWithTreated "full"))
    ∧ (a.treated_units = .noneArg → a.model_type ≠ "full" →
      fit ext a = (.error (.badModelTypeNoTreated a.model_type), [])) := by
  constructor
  · intro tu ht hv hm
    rw [fit_treated hXY ht hv]
    have hph : (tbPh ext a tu).1 = .error (.badModelTypeWithTreated a.model_type) := by
      unfold tbPh
      rw [phase12_bad (by rw [hm]; decide) (by rw [hm]; decide) (by rw [hm]; decide)]
    rw [treatedBranch_of_phError hph, hm]
  · intro ht hm
    rw [fit_full hXY ht, fullBranch_bad hm]

/-- Witness for C3: both gating directions at concrete inputs. -/
theorem claim3_witness :
    (fit extQ { argsQ with model_type := "full" }).1 =
      .error (.badModelTypeWithTreated "full")
    ∧ fit extQ { argsQ with treated_units := .noneArg } =
      (.error (.badModelTypeNoTreated "retrospective"), []) :=
  ⟨(claim3_model_gating extQ { argsQ with model_type := "full" } rfl).1 [3] rfl
      (by decide) rfl,
   (claim3_model_gating extQ { argsQ with treated_units := .noneArg } rfl).2 rfl
      (by decide)⟩

/-- Concrete arguments with a user supplied scalar covariate penalty of one
half. -/
def args1 : FitArgs ℚ := { argsQ with covariate_penalties := some (.scalar (1 / 2)) }

/-- C1 (code bug, scalar branch): the choose helper, in the non iterable
branch, returns the value of scores rather than the scalar penalty itself,
so a fit run with the scalar covariate penalty one half and a CV score of 7
records 7, the score, as the selected V penalty instead of the supplied
penalty.  The first conjunct shows the behaviour of the helper in general;
the others evaluate fit at the concrete failing input. -/
theorem claim1_scalar_choose_code_bug :
    (∀ (scores : Pens ℚ) (v : ℚ) (choice : Choice ℚ),
      chooseVPen scores (.scalar v) choice = .ok scores)
    ∧ resultVPen (fit extQ args1) = some (.scalar 7)
    ∧ resultVPen (fit extQ args1) ≠ some (.scalar (1 / 2)) :=
  ⟨fun scores v choice => chooseVPen_scalar scores v choice,
   by rfl,
   by
    intro h
    rw [show resultVPen (fit extQ args1) = some (.scalar 7) from rfl] at h
    simp only [Option.some.injEq, Pens.scalar.injEq] at h
    norm_num at h⟩

/-- C7: predict on a fit result multiplies the stored weights with the donor
outcome matrix, which defaults to the control rows of Y for every model type
other than full and to all of Y under full, while an explicitly supplied
donor matrix is used as given. -/
theorem claim7_predict {α : Type} [LinearOrderedField α] (f : SparseSCFit α)
    (cu : List Int) (Yd : Mat α) :
    (f.model_type ≠ "full" → f.control_units = some cu →
      f.predict none = matMul f.sc_weights (rowSelect f.Y cu))
    ∧ (f.model_type = "full" → f.predict none = matMul f.sc_weights f.Y)
    ∧ f.predict (some Yd) = matMul f.sc_weights Yd := by
  refine ⟨fun h1 h2 => ?_, fun h => ?_, rfl⟩
  · simp [SparseSCFit.predict, h1, h2]
  · simp [SparseSCFit.predict, h]

/-- A concrete fit result over the rationals used to witness the predict
dispatch. -/
def fitResQ : SparseSCFit ℚ :=
  { X := [[1], [2]]
    Y := [[3, 4], [5, 6]]
    control_units := some [1]
    treated_units := some [0]
    model_type := "retrospective"
    V_penalty := .scalar 1
    weight_penalty := 1
    covariate_penalties := .seq [1]
    V := [[1]]
    sc_weights := [[2], [3]] }

/-- Witness for C7 at a concrete fit result. -/
theorem claim7_witness :
    fitResQ.predict none = matMul fitResQ.sc_weights (rowSelect fitResQ.Y [1])
    ∧ fitResQ.predict (some [[1, 0]]) = matMul fitResQ.sc_weights [[1, 0]] :=
  ⟨(claim7_predict fitResQ [1] [[1, 0]]).1 (by decide) rfl,
   (claim7_predict fitResQ [1] [[1, 0]]).2.2⟩

/-- Concrete arguments with an invalid (neither min nor callable) choice
value and a sequence of covariate penalties. -/
def args4 : FitArgs ℚ := { argsQ with choice := .other ("typo") }

/-- C4 counterexample: with an invalid choice value, fit does raise the
invalid configuration error, but only after the expensive CV_score grid
evaluation has run: at this concrete input the final trace does contain a
CV_score call, refuting eager detection of the invalid choice. -/
theorem claim4_counterexample :
    (fit extQ args4).1 = .error (.badChoice ("typo"))
    ∧ cvRan (fit extQ args4).2 = true :=
  ⟨rfl, rfl⟩

/-- C4 (amended): bad model_type and malformed treated_units are detected
before the CV_score grid evaluation and surfaced directly to the caller
(the trace contains no CV_score call); an invalid choice value is likewise
surfaced directly, but it is detected only after the CV_score grid
evaluation has run. -/
theorem claim4_amended {α : Type} [LinearOrderedField α] (ext : Ext α) (a : FitArgs α)
    (hXY : a.X.length = a.Y.length) :
    ((a.treated_units = .nonIterable ∨
        (∃ tu e, a.treated_units = .units tu ∧ validateTreated a.Y.length tu = some e)) →
      (∃ er, (fit ext a).1 = .error er) ∧ cvRan (fit ext a).2 = false)
    ∧ (((∃ tu, a.treated_units = .units tu ∧ validateTreated a.Y.length tu = none ∧
          a.model_type ≠ "retrospective" ∧ a.model_type ≠ "prospective" ∧
          a.model_type ≠ "prospective-restricted") ∨
        (a.treated_units = .noneArg ∧ a.model_type ≠ "full")) →
      (∃ er, (fit ext a).1 = .error er) ∧ cvRan (fit ext a).2 = false)
    ∧ (∀ s vs, a.choice = .other s → a.covariate_penalties = some (.seq vs) →
        ((∃ tu, a.treated_units = .units tu ∧ validateTreated a.Y.length tu = none ∧
            (a.model_type = "retrospective" ∨ a.model_type = "prospective" ∨
             a.model_type = "prospective-restricted")) ∨
         (a.treated_units = .noneArg ∧ a.model_type = "full")) →
        (fit ext a).1 = .error (.badChoice s) ∧ cvRan (fit ext a).2 = true) := by
  refine ⟨?_, ?_, ?_⟩
  · rintro (ht | ⟨tu, e, ht, hv⟩)
    · rw [fit_nonIterable hXY ht]
      exact ⟨⟨_, rfl⟩, rfl⟩
    · rw [fit_invalidTreated hXY ht hv]
      exact ⟨⟨e, rfl⟩, rfl⟩
  · rintro (⟨tu, ht, hv, h1, h2, h3⟩ | ⟨ht, hm⟩)
    · rw [fit_treated hXY ht hv]
      have hph : tbPh ext a tu = (.error (.badModelTypeWithTreated a.model_type), []) := by
        unfold tbPh
        exact phase12_bad h1 h2 h3
      rw [treatedBranch_of_phError (by rw [hph])]
      refine ⟨⟨_, rfl⟩, ?_⟩
      rw [show (tbPh ext a tu).2 = [] from by rw [hph]]
      rw [cvRan_append, cvRan_append, tbW_noCv tu, tbC_noCv tu]
      rfl
    · rw [fit_full hXY ht, fullBranch_bad hm]
      exact ⟨⟨_, rfl⟩, rfl⟩
  · intro s vs hch hcp
    rintro (⟨tu, ht, hv, hm⟩ | ⟨ht, hm⟩)
    · rw [fit_treated hXY ht hv]
      have hcps : (tbC ext a tu).1 = .seq vs := by
        unfold tbC
        rw [resolveCPs_some _ _ _ hcp]
      have hph : (tbPh ext a tu).1 = .error (.badChoice s)
          ∧ cvRan (tbPh ext a tu).2 = true := by
        rcases hm with hm | hm | hm
        · unfold tbPh
          rw [phase12_retro hm, hcps, hch, chooseVPen_seq_other]
          exact ⟨rfl, rfl⟩
        · unfold tbPh
          rw [phase12_prosp hm, hcps, hch, chooseVPen_seq_other]
          refine ⟨rfl, ?_⟩
          rw [show (afterChoose (α := α) (.error (.badChoice s))
              ((prospGradFolds ext a tu (controlUnits a.Y.length tu)).2 ++
                [Event.cvScore a.X a.Y none none a.cv_folds (.seq vs) (tbW ext a tu).1
                  (some (prospGradFolds ext a tu (controlUnits a.Y.length tu)).1)
                  (some a.gradient_seed)]) _ _).2 =
            (prospGradFolds ext a tu (controlUnits a.Y.length tu)).2 ++
              [Event.cvScore a.X a.Y none none a.cv_folds (.seq vs) (tbW ext a tu).1
                (some (prospGradFolds ext a tu (controlUnits a.Y.length tu)).1)
                (some a.gradient_seed)] from rfl]
          rw [cvRan_append, prospGradFolds_noCv]
          rfl
        · unfold tbPh
          rw [phase12_restr hm, hcps, hch, chooseVPen_seq_other]
          exact ⟨rfl, rfl⟩
      rw [treatedBranch_of_phError hph.1]
      refine ⟨rfl, ?_⟩
      rw [cvRan_append, cvRan_append, tbW_noCv tu, tbC_noCv tu, hph.2]
      rfl
    · rw [fit_full hXY ht, fullBranch_ok hm]
      have hcps : (fbC ext a).1 = .seq vs := by
        unfold fbC
        rw [resolveCPs_some _ _ _ hcp]
      have hfb : fbFin ext a =
          (.error (.badChoice s),
           [Event.cvScore a.X a.Y none none a.cv_folds (fbC ext a).1 (fbW ext a).1
              (some a.gradient_folds) (some a.gradient_seed)]) :=
        fbFin_error (by rw [hcps, hch, chooseVPen_seq_other])
      rw [hfb]
      refine ⟨rfl, ?_⟩
      rw [cvRan_append, cvRan_append, fbC_noCv, fbW_noCv]
      rfl

section ProspTraceLemmas

variable {α : Type} [LinearOrderedField α]

theorem fit_usedGradSplits_prosp (ext : Ext α) (a : FitArgs α) (tu : List Int)
    (hXY : a.X.length = a.Y.length) (ht : a.treated_units = .units tu)
    (hv : validateTreated a.Y.length tu = none) (hm : a.model_type = "prospective") :
    usedGradSplits (fit ext a).2 =
      some (some (prospGradFolds ext a tu (controlUnits a.Y.length tu)).1) := by
  rw [fit_treated hXY ht hv]
  rw [show (treatedBranch ext a tu).2 =
    (tbW ext a tu).2 ++ ((tbC ext a tu).2 ++ (tbFin ext a tu).2) from rfl]
  rw [usedGradSplits_append (tbW_noCv tu), usedGradSplits_append (tbC_noCv tu)]
  obtain ⟨r1, hr1⟩ : ∃ r, (tbFin ext a tu).2 = (tbPh ext a tu).2 ++ r := by
    unfold tbFin
    exact finishTreated_snd
  obtain ⟨r2, hr2⟩ : ∃ r, (tbPh ext a tu).2 =
      ((prospGradFolds ext a tu (controlUnits a.Y.length tu)).2 ++
        [Event.cvScore a.X a.Y none none a.cv_folds (tbC ext a tu).1 (tbW ext a tu).1
          (some (prospGradFolds ext a tu (controlUnits a.Y.length tu)).1)
          (some a.gradient_seed)]) ++ r := by
    unfold tbPh
    rw [phase12_prosp hm]
    exact afterChoose_snd
  rw [hr1, hr2, List.append_assoc, List.append_assoc,
    usedGradSplits_append (prospGradFolds_noCv tu (controlUnits a.Y.length tu)),
    List.singleton_append]
  rfl

theorem fit_kfold_mem_prosp (ext : Ext α) (a : FitArgs α) (tu : List Int) (k : ℕ)
    (hXY : a.X.length = a.Y.length) (ht : a.treated_units = .units tu)
    (hv : validateTreated a.Y.length tu = none) (hm : a.model_type = "prospective")
    (hk : a.gradient_folds = .count k) :
    Event.kfoldSplit k a.gradient_seed a.X.length ∈ (fit ext a).2 := by
  rw [fit_treated hXY ht hv]
  rw [show (treatedBranch ext a tu).2 =
    (tbW ext a tu).2 ++ ((tbC ext a tu).2 ++ (tbFin ext a tu).2) from rfl]
  refine List.mem_append_right _ (List.mem_append_right _ ?_)
  obtain ⟨r1, hr1⟩ : ∃ r, (tbFin ext a tu).2 = (tbPh ext a tu).2 ++ r := by
    unfold tbFin
    exact finishTreated_snd
  obtain ⟨r2, hr2⟩ : ∃ r, (tbPh ext a tu).2 =
      ((prospGradFolds ext a tu (controlUnits a.Y.length tu)).2 ++
        [Event.cvScore a.X a.Y none none a.cv_folds (tbC ext a tu).1 (tbW ext a tu).1
          (some (prospGradFolds ext a tu (controlUnits a.Y.length tu)).1)
          (some a.gradient_seed)]) ++ r := by
    unfold tbPh
    rw [phase12_prosp hm]
    exact afterChoose_snd
  rw [hr1, hr2]
  refine List.mem_append_left _ (List.mem_append_left _ (List.mem_append_left _ ?_))
  rw [show (prospGradFolds ext a tu (controlUnits a.Y.length tu)).2 =
    [Event.kfoldSplit k a.gradient_seed a.X.length] from by
      rw [prospGradFolds_count _ _ hk]]
  exact List.mem_singleton_self _

end ProspTraceLemmas

/-- Concrete prospective arguments with user supplied gradient folds whose
single fold already has the treated set as its test set. -/
def args5 : FitArgs ℚ := { argsQ with
    model_type := "prospective"
    gradient_folds := .explicit [({0, 1}, {3})] }

/-- C5 counterexample: with user supplied gradient folds [({0,1},{3})] and
treated unit 3, fit hands the folds to CV_score unchanged: the train set was
not unioned with the treated units and the final fold (all controls, all
treated) was not appended, since the transformed and appended fold list
would be [({0,1,2},{3})]. -/
theorem claim5_counterexample :
    usedGradSplits (fit extQ args5).2 = some (some (.explicit [({0, 1}, {3})]))
    ∧ usedGradSplits (fit extQ args5).2 ≠
      some (some (.explicit (prospectiveFolds [({0, 1}, {3})] {3} {0, 1, 2}))) := by
  constructor
  · rfl
  · decide

/-- C5 (amended): under the prospective model type, an integer
gradient_folds is split by KFold and always transformed (union of treated
into train, difference out of test, empty sides dropped) with the fold (all
controls, all treated) appended; a user supplied fold list receives this
transform and the appended fold only when no supplied fold has the treated
set exactly as its test set, and is otherwise used unchanged. -/
theorem claim5_prospective_folds {α : Type} [LinearOrderedField α] (ext : Ext α)
    (a : FitArgs α) (tu : List Int) (hXY : a.X.length = a.Y.length)
    (ht : a.treated_units = .units tu) (hv : validateTreated a.Y.length tu = none)
    (hm : a.model_type = "prospective") :
    (∀ k, a.gradient_folds = .count k →
      usedGradSplits (fit ext a).2 = some (some (.explicit
        (prospectiveFolds (ext.kfold k a.gradient_seed a.X.length) tu.toFinset
          (controlUnits a.Y.length tu).toFinset)))
      ∧ Event.kfoldSplit k a.gradient_seed a.X.length ∈ (fit ext a).2)
    ∧ (∀ fs, a.gradient_folds = .explicit fs →
      ((∃ gf ∈ fs, tu.toFinset = gf.2) →
        usedGradSplits (fit ext a).2 = some (some (.explicit fs)))
      ∧ (¬ (∃ gf ∈ fs, tu.toFinset = gf.2) →
        usedGradSplits (fit ext a).2 = some (some (.explicit
          (prospectiveFolds fs tu.toFinset (controlUnits a.Y.length tu).toFinset))))) := by
  have key := fit_usedGradSplits_prosp ext a tu hXY ht hv hm
  constructor
  · intro k hk
    refine ⟨?_, fit_kfold_mem_prosp ext a tu k hXY ht hv hm hk⟩
    rw [key, prospGradFolds_count _ _ hk]
  · intro fs hfs
    constructor
    · intro hex
      rw [key, prospGradFolds_explicit _ _ hfs]
      rw [show prospectiveFoldsUser fs tu.toFinset
          (controlUnits a.Y.length tu).toFinset = fs from by
        unfold prospectiveFoldsUser
        rw [if_pos hex]]
    · intro hnex
      rw [key, prospGradFolds_explicit _ _ hfs]
      rw [show prospectiveFoldsUser fs tu.toFinset
          (controlUnits a.Y.length tu).toFinset =
          prospectiveFolds fs tu.toFinset (controlUnits a.Y.length tu).toFinset from by
        unfold prospectiveFoldsUser
        rw [if_neg hnex]]

/-- Concrete prospective arguments with the default integer gradient fold
count. -/
def args5w : FitArgs ℚ := { argsQ with model_type := "prospective" }

/-- Witness for C5 (amended), integer fold branch, at a concrete input. -/
theorem claim5_witness :
    usedGradSplits (fit extQ args5w).2 = some (some (.explicit
      (prospectiveFolds (extQ.kfold 10 10101 4) ([3] : List Int).toFinset
        (controlUnits 4 [3]).toFinset)))
    ∧ Event.kfoldSplit 10 10101 4 ∈ (fit extQ args5w).2 :=
  (claim5_prospective_folds extQ args5w [3] rfl rfl rfl rfl).1 10 rfl

section UsedVPenLemmas

variable {α : Type} [LinearOrderedField α]

theorem fit_usedVPen_treated (ext : Ext α) (a : FitArgs α) (tu : List Int)
    (hXY : a.X.length = a.Y.length) (ht : a.treated_units = .units tu)
    (hv : validateTreated a.Y.length tu = none)
    (hm : a.model_type = "retrospective" ∨ a.model_type = "prospective" ∨
      a.model_type = "prospective-restricted") :
    usedVPen (fit ext a).2 = some (tbC ext a tu).1 := by
  rw [fit_treated hXY ht hv]
  rw [show (treatedBranch ext a tu).2 =
    (tbW ext a tu).2 ++ ((tbC ext a tu).2 ++ (tbFin ext a tu).2) from rfl]
  rw [usedVPen_append (tbW_noCv tu), usedVPen_append (tbC_noCv tu)]
  obtain ⟨r1, hr1⟩ : ∃ r, (tbFin ext a tu).2 = (tbPh ext a tu).2 ++ r := by
    unfold tbFin
    exact finishTreated_snd
  rw [hr1]
  rcases hm with hm | hm | hm
  · obtain ⟨r2, hr2⟩ : ∃ r, (tbPh ext a tu).2 =
        [Event.cvScore (tbXtrain a tu) (tbYtrain a tu) none none a.cv_folds
          (tbC ext a tu).1 (tbW ext a tu).1 (some a.gradient_folds)
          (some a.gradient_seed)] ++ r := by
      unfold tbPh
      rw [phase12_retro hm]
      exact afterChoose_snd
    rw [hr2, List.append_assoc, List.singleton_append]
    rfl
  · obtain ⟨r2, hr2⟩ : ∃ r, (tbPh ext a tu).2 =
        ((prospGradFolds ext a tu (controlUnits a.Y.length tu)).2 ++
          [Event.cvScore a.X a.Y none none a.cv_folds (tbC ext a tu).1 (tbW ext a tu).1
            (some (prospGradFolds ext a tu (controlUnits a.Y.length tu)).1)
            (some a.gradient_seed)]) ++ r := by
      unfold tbPh
      rw [phase12_prosp hm]
      exact afterChoose_snd
    rw [hr2, List.append_assoc, List.append_assoc,
      usedVPen_append (prospGradFolds_noCv tu (controlUnits a.Y.length tu)),
      List.singleton_append]
    rfl
  · obtain ⟨r2, hr2⟩ : ∃ r, (tbPh ext a tu).2 =
        [Event.cvScore (tbXtrain a tu) (tbYtrain a tu) (some (rowSelect a.X tu))
          (some (rowSelect a.Y tu)) a.cv_folds (tbC ext a tu).1 (tbW ext a tu).1
          none none] ++ r := by
      unfold tbPh
      rw [phase12_restr hm]
      exact afterChoose_snd
    rw [hr2, List.append_assoc, List.singleton_append]
    rfl

theorem fit_usedVPen_full (ext : Ext α) (a : FitArgs α)
    (hXY : a.X.length = a.Y.length) (ht : a.treated_units = .noneArg)
    (hm : a.model_type = "full") :
    usedVPen (fit ext a).2 = some (fbC ext a).1 := by
  rw [fit_full hXY ht, fullBranch_ok hm]
  rw [usedVPen_append fbC_noCv, usedVPen_append fbW_noCv]
  obtain ⟨r, hr⟩ := fbFin_snd ext a
  rw [hr]
  rfl

end UsedVPenLemmas

theorem linspace_length {α : Type} [LinearOrderedField α] (a b : α) (n : ℕ) :
    (linspace a b n).length = n := by
  unfold linspace
  split_ifs with h1 h2
  · simp [h1]
  · simp [h2]
  · rw [List.length_map, List.length_range]

theorem linspace_mem {α : Type} [LinearOrderedField α] {x a b : α} {n : ℕ}
    (hn : 2 ≤ n) (hx : x ∈ linspace a b n) :
    ∃ i : ℕ, i < n ∧ x = a + (b - a) * (i : α) / ((n : α) - 1) := by
  unfold linspace at hx
  rw [if_neg (by omega), if_neg (by omega)] at hx
  obtain ⟨i, hi, hfx⟩ := List.mem_map.mp hx
  exact ⟨i, List.mem_range.mp hi, hfx.symm⟩

/-- C6: when grid and covariate_penalties are both unset, fit builds the
default grid exp(linspace(log(min_v_pen), log(max_v_pen), grid_points)) and
the covariate penalties actually handed to CV_score are this grid scaled
elementwise by the value returned by get_max_v_pen (applied to the branch
specific matrices and weight penalty); over the reals, with the default
bounds 1e-6 and 1 and the default 20 grid points, the grid has 20 entries,
all in the interval (0, 1]. -/
theorem claim6_default_grid :
    (∀ {α : Type} [inst : LinearOrderedField α] (ext : Ext α) (a : FitArgs α),
      a.X.length = a.Y.length → a.grid = none → a.covariate_penalties = none →
      ((a.treated_units = .noneArg → a.model_type = "full" →
        usedVPen (fit ext a).2 = some (.seq
          ((defaultGrid ext.np_exp ext.np_log a.min_v_pen a.max_v_pen
              a.grid_points).map
            (fun x => x * ext.get_max_v_pen a.X a.Y a.weight_penalty
              a.gradient_folds))))
      ∧ (∀ tu, a.treated_units = .units tu → validateTreated a.Y.length tu = none →
        (a.model_type = "retrospective" ∨ a.model_type = "prospective" ∨
          a.model_type = "prospective-restricted") →
        usedVPen (fit ext a).2 = some (.seq
          ((defaultGrid ext.np_exp ext.np_log a.min_v_pen a.max_v_pen
              a.grid_points).map
            (fun x => x * ext.get_max_v_pen
              (rowSelect a.X (controlUnits a.Y.length tu))
              (rowSelect a.Y (controlUnits a.Y.length tu))
              (some (resolveWPen ext a (rowSelect a.X (controlUnits a.Y.length tu))).1)
              a.gradient_folds))))))
    ∧ (defaultGrid Real.exp Real.log (1 / 1000000) 1 20).length = 20
    ∧ (∀ x ∈ defaultGrid Real.exp Real.log (1 / 1000000) 1 20, 0 < x ∧ x ≤ 1) := by
  refine ⟨?_, ?_, ?_⟩
  · intro α inst ext a hXY hg hc
    constructor
    · intro ht hm
      rw [fit_usedVPen_full ext a hXY ht hm]
      rw [show (fbC ext a).1 = Pens.seq
          ((defaultGrid ext.np_exp ext.np_log a.min_v_pen a.max_v_pen
              a.grid_points).map
            (fun x => x * ext.get_max_v_pen a.X a.Y a.weight_penalty
              a.gradient_folds)) from by
        unfold fbC
        rw [resolveCPs_none_nogrid _ _ _ hc hg]]
    · intro tu ht hv hm
      rw [fit_usedVPen_treated ext a tu hXY ht hv hm]
      rw [show (tbC ext a tu).1 = Pens.seq
          ((defaultGrid ext.np_exp ext.np_log a.min_v_pen a.max_v_pen
              a.grid_points).map
            (fun x => x * ext.get_max_v_pen (tbXtrain a tu) (tbYtrain a tu)
              (some (tbW ext a tu).1) a.gradient_folds)) from by
        unfold tbC
        rw [resolveCPs_none_nogrid _ _ _ hc hg]]
      rfl
  · simp [defaultGrid, linspace_length]
  · intro x hx
    unfold defaultGrid at hx
    obtain ⟨y, hy, rfl⟩ := List.mem_map.mp hx
    obtain ⟨i, hi, hyeq⟩ := linspace_mem (by norm_num) hy
    have hL : Real.log (1 / 1000000) < 0 :=
      Real.log_neg (by norm_num) (by norm_num)
    have hi19 : (i : ℝ) ≤ 19 := by
      have h2 : i ≤ 19 := by omega
      exact_mod_cast h2
    have hi0 : (0 : ℝ) ≤ (i : ℝ) := Nat.cast_nonneg i
    have h20 : ((20 : ℕ) : ℝ) - 1 = 19 := by norm_num
    rw [Real.log_one, h20] at hyeq
    have hy0 : y ≤ 0 := by
      rw [hyeq]
      nlinarith [mul_nonpos_of_nonpos_of_nonneg hL.le
        (show (0 : ℝ) ≤ 19 - (i : ℝ) by linarith)]
    refine ⟨Real.exp_pos _, ?_⟩
    have hle : Real.exp y ≤ Real.exp 0 := Real.exp_le_exp.mpr hy0
    rwa [Real.exp_zero] at hle

/-- Concrete arguments asking for the default covariate penalty grid. -/
def args6 : FitArgs ℚ := { argsQ with covariate_penalties := none }

/-- Witness for C6, treated branch, at a concrete input. -/
theorem claim6_witness :
    usedVPen (fit extQ args6).2 = some (.seq
      ((defaultGrid extQ.np_exp extQ.np_log (1 / 1000000) 1 20).map
        (fun x => x * extQ.get_max_v_pen (rowSelect args6.X (controlUnits 4 [3]))
          (rowSelect args6.Y (controlUnits 4 [3]))
          (some (resolveWPen extQ args6 (rowSelect args6.X (controlUnits 4 [3]))).1)
          (.count 10)))) :=
  (claim6_default_grid.1 extQ args6 rfl rfl rfl).2 [3] rfl rfl (Or.inl rfl)

/-- C10: with weight_penalty and covariate_penalties both None, the full
branch first calls get_max_v_pen with w_pen still None and only afterwards
computes the weight penalty guestimate, whereas every treated branch first
computes the guestimate on Xtrain and then passes it to get_max_v_pen.  The
conclusion pins the first two events of the trace in order, together with
the arguments each call received. -/
theorem claim10_default_order {α : Type} [LinearOrderedField α] (ext : Ext α)
    (a : FitArgs α) (hXY : a.X.length = a.Y.length) (hw : a.weight_penalty = none)
    (hc : a.covariate_penalties = none) :
    (a.treated_units = .noneArg → a.model_type = "full" →
      ∃ rest, (fit ext a).2 =
        Event.getMaxVPen a.X a.Y none a.gradient_folds
          (ext.get_max_v_pen a.X a.Y none a.gradient_folds) ::
        Event.wPenGuestimate a.X (ext.w_pen_guestimate a.X) :: rest)
    ∧ (∀ tu, a.treated_units = .units tu → validateTreated a.Y.length tu = none →
      ∃ rest, (fit ext a).2 =
        Event.wPenGuestimate (rowSelect a.X (controlUnits a.Y.length tu))
          (ext.w_pen_guestimate (rowSelect a.X (controlUnits a.Y.length tu))) ::
        Event.getMaxVPen (rowSelect a.X (controlUnits a.Y.length tu))
          (rowSelect a.Y (controlUnits a.Y.length tu))
          (some (ext.w_pen_guestimate (rowSelect a.X (controlUnits a.Y.length tu))))
          a.gradient_folds
          (ext.get_max_v_pen (rowSelect a.X (controlUnits a.Y.length tu))
            (rowSelect a.Y (controlUnits a.Y.length tu))
            (some (ext.w_pen_guestimate (rowSelect a.X (controlUnits a.Y.length tu))))
            a.gradient_folds) :: rest) := by
  constructor
  · intro ht hm
    rw [fit_full hXY ht, fullBranch_ok hm]
    have h1 : (fbC ext a).2 =
        [Event.getMaxVPen a.X a.Y none a.gradient_folds
          (ext.get_max_v_pen a.X a.Y none a.gradient_folds)] := by
      unfold fbC
      rw [resolveCPs_trace_none _ _ _ hc, hw]
    have h2 : (fbW ext a).2 = [Event.wPenGuestimate a.X (ext.w_pen_guestimate a.X)] := by
      unfold fbW
      rw [resolveWPen_none _ hw]
    rw [h1, h2]
    exact ⟨(fbFin ext a).2, rfl⟩
  · intro tu ht hv
    rw [fit_treated hXY ht hv]
    rw [show (treatedBranch ext a tu).2 =
      (tbW ext a tu).2 ++ ((tbC ext a tu).2 ++ (tbFin ext a tu).2) from rfl]
    have h3 : (tbW ext a tu).1 = ext.w_pen_guestimate (tbXtrain a tu) := by
      unfold tbW
      rw [resolveWPen_none _ hw]
    have h1 : (tbW ext a tu).2 =
        [Event.wPenGuestimate (tbXtrain a tu)
          (ext.w_pen_guestimate (tbXtrain a tu))] := by
      unfold tbW
      rw [resolveWPen_none _ hw]
    have h2 : (tbC ext a tu).2 =
        [Event.getMaxVPen (tbXtrain a tu) (tbYtrain a tu) (some (tbW ext a tu).1)
          a.gradient_folds
          (ext.get_max_v_pen (tbXtrain a tu) (tbYtrain a tu) (some (tbW ext a tu).1)
            a.gradient_folds)] := by
      unfold tbC
      rw [resolveCPs_trace_none _ _ _ hc]
    rw [h1, h2, h3]
    exact ⟨(tbFin ext a tu).2, rfl⟩

/-- Concrete arguments leaving both penalties to their defaults. -/
def args10 : FitArgs ℚ := { argsQ with
    weight_penalty := none
    covariate_penalties := none }

/-- Witness for C10, treated branch, at a concrete input. -/
theorem claim10_witness :
    ∃ rest, (fit extQ args10).2 =
      Event.wPenGuestimate (rowSelect args10.X (controlUnits 4 [3]))
        (extQ.w_pen_guestimate (rowSelect args10.X (controlUnits 4 [3]))) ::
      Event.getMaxVPen (rowSelect args10.X (controlUnits 4 [3]))
        (rowSelect args10.Y (controlUnits 4 [3]))
        (some (extQ.w_pen_guestimate (rowSelect args10.X (controlUnits 4 [3]))))
        (.count 10)
        (extQ.get_max_v_pen (rowSelect args10.X (controlUnits 4 [3]))
          (rowSelect args10.Y (controlUnits 4 [3]))
          (some (extQ.w_pen_guestimate (rowSelect args10.X (controlUnits 4 [3]))))
          (.count 10)) :: rest :=
  (claim10_default_order extQ args10 rfl rfl rfl).2 [3] rfl rfl

/-- C8: fit is deterministic given its inputs and gradient_seed.  The global
process random state (threaded to every collaborator as an extra argument)
cannot influence the result: when each collaborator ignores the global state
(as the spec requires of them, being deterministic given their explicit
random_state arguments), two runs of fit under different global states
return identical results, penalties, V and weights; and the only KFold
shuffle requested by fit.py itself receives exactly gradient_seed as its
random_state. -/
theorem claim8_determinism {α : Type} [LinearOrderedField α] (e : ExtG α)
    (g₁ g₂ : Int)
    (h1 : ∀ x, e.np_exp g₁ x = e.np_exp g₂ x)
    (h2 : ∀ x, e.np_log g₁ x = e.np_log g₂ x)
    (h3 : ∀ X, e.w_pen_guestimate g₁ X = e.w_pen_guestimate g₂ X)
    (h4 : ∀ X Y wp gs, e.get_max_v_pen g₁ X Y wp gs = e.get_max_v_pen g₂ X Y wp gs)
    (h5 : ∀ X Y Xt Yt sp vp w gs rs,
      e.cv_score g₁ X Y Xt Yt sp vp w gs rs = e.cv_score g₂ X Y Xt Yt sp vp w gs rs)
    (h6 : ∀ X Y Xt Yt vp gs rs,
      e.tensor g₁ X Y Xt Yt vp gs rs = e.tensor g₂ X Y Xt Yt vp gs rs)
    (h7 : ∀ Xtr Xt V w dp, e.weights g₁ Xtr Xt V w dp = e.weights g₂ Xtr Xt V w dp)
    (h8 : ∀ k s n, e.kfold g₁ k s n = e.kfold g₂ k s n) :
    (∀ a : FitArgs α, fitG g₁ e a = fitG g₂ e a)
    ∧ (∀ (a : FitArgs α) (tu : List Int) (k : ℕ), a.X.length = a.Y.length →
        a.treated_units = .units tu → validateTreated a.Y.length tu = none →
        a.model_type = "prospective" → a.gradient_folds = .count k →
        Event.kfoldSplit k a.gradient_seed a.X.length ∈ (fitG g₁ e a).2) := by
  have hfix : e.fixRng g₁ = e.fixRng g₂ := by
    unfold ExtG.fixRng
    congr 1
    · funext x
      exact h1 x
    · funext x
      exact h2 x
    · funext X
      exact h3 X
    · funext X Y wp gs
      exact h4 X Y wp gs
    · funext X Y Xt Yt sp vp w gs rs
      exact h5 X Y Xt Yt sp vp w gs rs
    · funext X Y Xt Yt vp gs rs
      exact h6 X Y Xt Yt vp gs rs
    · funext Xtr Xt V w dp
      exact h7 Xtr Xt V w dp
    · funext k s n
      exact h8 k s n
  constructor
  · intro a
    unfold fitG
    rw [hfix]
  · intro a tu k hXY ht hv hm hk
    exact fit_kfold_mem_prosp (e.fixRng g₁) a tu k hXY ht hv hm hk

/-- Witness for C8 at a concrete prospective input under two different
global random states. -/
theorem claim8_witness :
    fitG 5 extQG args5w = fitG 99 extQG args5w
    ∧ Event.kfoldSplit 10 10101 4 ∈ (fitG 5 extQG args5w).2 :=
  ⟨(claim8_determinism extQG 5 99 (fun _ => rfl) (fun _ => rfl) (fun _ => rfl)
      (fun _ _ _ _ => rfl) (fun _ _ _ _ _ _ _ _ _ => rfl)
      (fun _ _ _ _ _ _ _ => rfl) (fun _ _ _ _ _ => rfl) (fun _ _ _ => rfl)).1 args5w,
   (claim8_determinism extQG 5 99 (fun _ => rfl) (fun _ => rfl) (fun _ => rfl)
      (fun _ _ _ _ => rfl) (fun _ _ _ _ _ _ _ _ _ => rfl)
      (fun _ _ _ _ _ _ _ => rfl) (fun _ _ _ _ _ => rfl) (fun _ _ _ => rfl)).2
     args5w [3] 10 rfl rfl rfl rfl rfl⟩

/-- Concrete full model arguments with an invalid choice value. -/
def args4w : FitArgs ℚ := { argsQ with
    treated_units := .noneArg
    model_type := "full"
    choice := .other ("oops") }

/-- Witness for C4 (amended), part three, at a concrete full model input. -/
theorem claim4_witness :
    (fit extQ args4w).1 = .error (.badChoice ("oops"))
    ∧ cvRan (fit extQ args4w).2 = true :=
  (claim4_amended extQ args4w rfl).2.2 "oops" [1, 2] rfl rfl (Or.inr ⟨rfl, rfl⟩)

end SparseSC
